import Mathlib

/-
Verification of the refresh-decision engine and fetch orchestrator of
refreshCsv.py (Environment Canada weather-history mirror).

The Python source is shallowly embedded: pure functions become Lean
functions, the sqlitedict staleness store becomes an association list
threaded explicitly, clock and calendar reads (`timelib.time()`,
`dt.date.today()`) become parameters, and the transport/sink capabilities
become explicit `Except` results supplied by the caller.  Machine integers
are `Int` (Python ints are unbounded, so no overflow modelling is needed).
-/

/-- Errors a fetch worker can raise: connection failure, request timeout,
or a local filesystem failure while writing the payload. -/
inductive FetchError where
  | transportError
  | timeoutError
  | ioError
deriving DecidableEq

/-- The fields of the source's `InventoryStation` dataclass consumed by the
refresh core: `stationId` (used for the partition path and the request) and
the daily-record year bounds.  `getStation` stores `None` for an empty CSV
token, so the year bounds are `Option Int`; the remaining sixteen fields
(name, province, coordinates, the hourly/monthly year bounds, ...) are never
read by `dailyYearsIter`/`update`'s fetch loop and are omitted. -/
structure InventoryStation where
  stationId : Int
  dlyFirstYear : Option Int
  dlyLastYear : Option Int
deriving DecidableEq

/-- Python's `range(start, stop)`: the integers `start, start+1, ...` strictly
below `stop`, ascending; empty when `stop ≤ start`. -/
def intRange (start stop : Int) : List Int :=
  (List.range (stop - start).toNat).map (fun (i : Nat) => start + (i : Int))

/-- Embeds `InventoryStation.dailyYearsIter` (refreshCsv.py lines 39-41):

    def dailyYearsIter(self):
        if self.dlyFirstYear is not None:
            yield from range(self.dlyFirstYear, self.dlyLastYear+1)

When `dlyFirstYear` is `None` the generator yields nothing.  Otherwise it
evaluates `self.dlyLastYear + 1`; when `dlyLastYear` is `None` that raises
`TypeError` (`None + 1`), modelled as `Except.error "TypeError"`. -/
def dailyYearsIter (s : InventoryStation) : Except String (List Int) :=
  match s.dlyFirstYear with
  | none => Except.ok []
  | some f =>
    match s.dlyLastYear with
    | none => Except.error "TypeError"
    | some l => Except.ok (intRange f (l + 1))

/-- Embeds `calcRefresh` (refreshCsv.py lines 65-79).  The environment reads
`dt.date.today().year`, `(dt.date.today() - timedelta(days=3)).year` and
`timelib.time()` are the parameters `todayYear`, `threeDaysAgoYear`, `now`.
The Python `if/elif/elif` returns `True` only when the matched branch's age
check passes; a matched branch whose check fails falls to `return False`
without consulting later branches. -/
def calcRefresh (todayYear threeDaysAgoYear now year lastRefresh : Int) : Bool :=
  if year = todayYear ∨ year = threeDaysAgoYear then
    decide (now - lastRefresh > 3600)
  else if year = todayYear - 1 then
    decide (now - lastRefresh > 3600 * 24 * 30)
  else
    decide (now - lastRefresh > 3600 * 24 * 365)

/-- The threshold table as the specification states it: the first matching
age-class determines the threshold (3600 s for the current year or the year
of `today - 3 days`; 2592000 s for the previous year; 31536000 s otherwise).
Written from the spec's words, to be compared against `calcRefresh`. -/
def ageClassThreshold (todayYear threeDaysAgoYear year : Int) : Int :=
  if year = todayYear ∨ year = threeDaysAgoYear then 3600
  else if year = todayYear - 1 then 2592000
  else 31536000

/-- The staleness store (`sqlitedict.SqliteDict('StationRefresh.db')`)
modelled as an association list from key to timestamp; the most recent
write for a key shadows older entries. -/
abbrev Store := List (String × Int)

/-- Embeds the read `stationRefresh.get(fname, 0)` (refreshCsv.py line 118):
a missing key yields 0. -/
def storeGet (store : Store) (key : String) : Int :=
  match store.find? (fun p => p.1 == key) with
  | some p => p.2
  | none => 0

/-- Embeds the write `stationRefresh[localPath] = timelib.time()`
(refreshCsv.py line 61): an idempotent overwrite of one key. -/
def storeSet (store : Store) (key : String) (v : Int) : Store :=
  (key, v) :: store

/-- Embeds `dirname = f'stations/\x7bstation.stationId//1000\x7d/\x7bstation.stationId\x7d'`
(refreshCsv.py line 113).  Python `//` is floor division, `Int.fdiv`. -/
def dirname (stationId : Int) : String :=
  "stations/" ++ toString (Int.fdiv stationId 1000) ++ "/" ++ toString stationId

/-- Embeds `fname = f'\x7bdirname\x7d/\x7byear\x7d.csv.xz'` (refreshCsv.py line 116):
the local partition path, a pure function of `stationId` and `year`, also
used as the staleness-store key. -/
def localPath (stationId year : Int) : String :=
  dirname stationId ++ "/" ++ toString year ++ ".csv.xz"

/-- One item of work submitted to the pool: `pool.submit(getOneFile, url,
dirname, fname)` for one `(stationId, year)` pair; `key` is the `fname`
argument, the local path, which is also the staleness-store key. -/
structure FetchUnit where
  stationId : Int
  year : Int
  key : String
deriving DecidableEq

/-- Embeds the body of `update`'s inner year loop (refreshCsv.py lines
115-125): compute `fname`; when `args.force is False` read the store with
default 0 and skip (`continue`) the year when `calcRefresh` is `False`;
otherwise submit the unit. -/
def unitForYear (todayYear threeDaysAgoYear now : Int) (force : Bool)
    (store : Store) (stationId year : Int) : Option FetchUnit :=
  let fname := localPath stationId year
  if force = false ∧ calcRefresh todayYear threeDaysAgoYear now year (storeGet store fname) = false then
    none
  else
    some ⟨stationId, year, fname⟩

/-- Embeds the per-station part of `update`'s loop (refreshCsv.py lines
112-125): iterate `station.dailyYearsIter()` and submit the years that
survive the refresh check.  A `TypeError` from the iterator propagates. -/
def unitsForStation (todayYear threeDaysAgoYear now : Int) (force : Bool)
    (store : Store) (s : InventoryStation) : Except String (List FetchUnit) :=
  match dailyYearsIter s with
  | Except.error e => Except.error e
  | Except.ok years =>
    Except.ok (years.filterMap (unitForYear todayYear threeDaysAgoYear now force store s.stationId))

/-- The units `update` submits to the pool over the whole station sequence,
in submission order (refreshCsv.py lines 99-125, with the station records
already parsed).  An exception raised for one station propagates out of
`update`. -/
def dueUnits (todayYear threeDaysAgoYear now : Int) (force : Bool)
    (store : Store) : List InventoryStation → Except String (List FetchUnit)
  | [] => Except.ok []
  | s :: rest =>
    match unitsForStation todayYear threeDaysAgoYear now force store s with
    | Except.error e => Except.error e
    | Except.ok us =>
      match dueUnits todayYear threeDaysAgoYear now force store rest with
      | Except.error e => Except.error e
      | Except.ok vs => Except.ok (us ++ vs)

/-- Spec-side enumeration: every unit of every station, with no policy
filtering and no store read.  Written from the spec's words ("`force=true`
causes every enumerated unit to be dispatched"), to be compared against
`dueUnits` under `force`. -/
def allUnits : List InventoryStation → Except String (List FetchUnit)
  | [] => Except.ok []
  | s :: rest =>
    match dailyYearsIter s with
    | Except.error e => Except.error e
    | Except.ok years =>
      match allUnits rest with
      | Except.error e => Except.error e
      | Except.ok vs =>
        Except.ok (years.map (fun y => ⟨s.stationId, y, localPath s.stationId y⟩) ++ vs)

/-- Embeds `getOneFile` (refreshCsv.py lines 54-62) as one worker's
execution over explicit capability results: `mkdirRes` for
`os.makedirs(dirname, exist_ok=True)`, `fetchRes` for
`threadLocal.session.get(url, timeout=10)` (its payload `response.content`),
`writeRes` for the `lzma` write of the payload.  Only after all three
succeed is `stationRefresh[localPath] = timelib.time()` executed; any
earlier failure raises, leaving the store untouched.  Returns the worker's
outcome and the store after the call. -/
def getOneFile (mkdirRes : Except FetchError Unit) (fetchRes : Except FetchError String)
    (writeRes : String → Except FetchError Unit) (store : Store) (path : String)
    (now : Int) : Except FetchError Unit × Store :=
  match mkdirRes with
  | Except.error e => (Except.error e, store)
  | Except.ok _ =>
    match fetchRes with
    | Except.error e => (Except.error e, store)
    | Except.ok body =>
      match writeRes body with
      | Except.error e => (Except.error e, store)
      | Except.ok _ => (Except.ok (), storeSet store path now)

/-- The staleness store after every submitted worker has run, given each
unit's overall outcome (fetch and sink combined): a successful worker
executes `stationRefresh[localPath] = timelib.time()`, a failed one leaves
the store untouched.  The workers run to completion regardless of what the
barrier later re-raises, since they were all submitted to the pool before
`update` collects any result. -/
def runStore (outcome : FetchUnit → Except FetchError Unit) (now : Int) :
    Store → List FetchUnit → Store
  | store, [] => store
  | store, u :: us =>
    match outcome u with
    | Except.ok _ => runStore outcome now (storeSet store u.key now) us
    | Except.error _ => runStore outcome now store us

/-- Embeds the completion barrier `while len(futures):
futures.pop(0).result()` (refreshCsv.py lines 126-127): `result()` waits for
each future in submission order and re-raises the first worker exception,
which then propagates out of `update`. -/
def barrier (outcome : FetchUnit → Except FetchError Unit) :
    List FetchUnit → Except FetchError Unit
  | [] => Except.ok ()
  | u :: us =>
    match outcome u with
    | Except.ok _ => barrier outcome us
    | Except.error e => Except.error e

/-- One run of `update` (refreshCsv.py lines 99-127) over already-parsed
station records: enumerate and filter the units, then let every worker run
(updating the store on success) and collect results at the barrier.  The
outer `Except String` is an exception raised during enumeration itself
(`TypeError` from `dailyYearsIter`); the inner component pairs the barrier's
outcome with the final store. -/
def updateRun (todayYear threeDaysAgoYear now : Int) (force : Bool) (store : Store)
    (stations : List InventoryStation) (outcome : FetchUnit → Except FetchError Unit) :
    Except String (Except FetchError Unit × Store) :=
  match dueUnits todayYear threeDaysAgoYear now force store stations with
  | Except.error e => Except.error e
  | Except.ok units => Except.ok (barrier outcome units, runStore outcome now store units)

/-- The 19-column header `update` requires (refreshCsv.py lines 102-107). -/
def expectedHeader : List String :=
  ["Name", "Province", "Climate ID", "Station ID", "WMO ID", "TC ID",
   "Latitude (Decimal Degrees)", "Longitude (Decimal Degrees)",
   "Latitude", "Longitude", "Elevation (m)", "First Year",
   "Last Year", "HLY First Year", "HLY Last Year", "DLY First Year",
   "DLY Last Year", "MLY First Year", "MLY Last Year"]

/-- Embeds `update`'s row loop gate (refreshCsv.py lines 100-112): row 0
must equal `expectedHeader` (`assert tokens == expectedHeader`) or the
`AssertionError` aborts `update` before any station record is built; rows
with `len(tokens) == 0` are skipped; the remaining rows are exactly those
passed to `getStation`. -/
def stationRows : List (List String) → Except String (List (List String))
  | [] => Except.ok []
  | first :: rest =>
    if first = expectedHeader then
      Except.ok (rest.filter (fun r => r.length != 0))
    else
      Except.error "AssertionError"

/-- Outcome function used for the concrete counterexample runs: the unit for
year 2000 times out, every other unit succeeds. -/
def outcomeYear2000Fails : FetchUnit → Except FetchError Unit :=
  fun u => if u.year = 2000 then Except.error FetchError.timeoutError else Except.ok ()

/-- Outcome function used for the concrete idempotence run: station 1's unit
succeeds, every other unit times out. -/
def outcomeStation1Succeeds : FetchUnit → Except FetchError Unit :=
  fun u => if u.stationId = 1 then Except.ok () else Except.error FetchError.timeoutError

/- Helper lemmas about the store and the worker pool model. -/

lemma storeGet_storeSet_self (store : Store) (k : String) (v : Int) :
    storeGet (storeSet store k v) k = v := by
  unfold storeGet storeSet
  rw [List.find?_cons_of_pos _ (by simp)]

lemma storeGet_storeSet_other (store : Store) (k k2 : String) (v : Int) (h : k ≠ k2) :
    storeGet (storeSet store k v) k2 = storeGet store k2 := by
  unfold storeGet storeSet
  rw [List.find?_cons_of_neg _ (by simp [h])]

lemma storeGet_runStore_or (outcome : FetchUnit → Except FetchError Unit) (now : Int)
    (units : List FetchUnit) (store : Store) (k : String) :
    storeGet (runStore outcome now store units) k = now ∨
      storeGet (runStore outcome now store units) k = storeGet store k := by
  induction units generalizing store with
  | nil => exact Or.inr rfl
  | cons u us ih =>
    cases ho : outcome u with
    | ok a =>
      simp only [runStore, ho]
      rcases ih (storeSet store u.key now) with h1 | h1
      · exact Or.inl h1
      · by_cases hk : u.key = k
        · subst hk
          rw [h1, storeGet_storeSet_self]
          exact Or.inl rfl
        · rw [h1, storeGet_storeSet_other _ _ _ _ hk]
          exact Or.inr rfl
    | error e =>
      simp only [runStore, ho]
      exact ih store

lemma storeGet_runStore_of_mem (outcome : FetchUnit → Except FetchError Unit) (now : Int)
    (store : Store) (units : List FetchUnit) (k : String)
    (h : ∃ u ∈ units, u.key = k ∧ outcome u = Except.ok ()) :
    storeGet (runStore outcome now store units) k = now := by
  induction units generalizing store with
  | nil =>
    rcases h with ⟨u, hu, -⟩
    exact (List.not_mem_nil u hu).elim
  | cons w ws ih =>
    rcases h with ⟨u, hu, hk, ho⟩
    rcases List.mem_cons.mp hu with rfl | hu2
    · simp only [runStore, ho]
      subst hk
      rcases storeGet_runStore_or outcome now ws (storeSet store u.key now) u.key with h1 | h1
      · exact h1
      · rw [h1, storeGet_storeSet_self]
    · cases hw : outcome w with
      | ok a =>
        simp only [runStore, hw]
        exact ih (storeSet store w.key now) ⟨u, hu2, hk, ho⟩
      | error e =>
        simp only [runStore, hw]
        exact ih store ⟨u, hu2, hk, ho⟩

lemma calcRefresh_at_now_false (todayYear threeDaysAgoYear now year : Int) :
    calcRefresh todayYear threeDaysAgoYear now year now = false := by
  unfold calcRefresh
  split_ifs <;> simp only [decide_eq_false_iff_not] <;> omega

lemma barrier_ok_iff (outcome : FetchUnit → Except FetchError Unit) (units : List FetchUnit) :
    barrier outcome units = Except.ok () ↔ ∀ u ∈ units, outcome u = Except.ok () := by
  induction units with
  | nil => simp [barrier]
  | cons u us ih =>
    cases ho : outcome u with
    | ok a => simp [barrier, ho, ih]
    | error e => simp [barrier, ho]

lemma dueUnits_mem (todayYear threeDaysAgoYear now : Int) (force : Bool) (store : Store)
    (stations : List InventoryStation) (units : List FetchUnit)
    (h : dueUnits todayYear threeDaysAgoYear now force store stations = Except.ok units)
    (v : FetchUnit) (hv : v ∈ units) :
    v.key = localPath v.stationId v.year ∧
      (force = false →
        calcRefresh todayYear threeDaysAgoYear now v.year (storeGet store v.key) = true) := by
  induction stations generalizing units with
  | nil =>
    simp only [dueUnits] at h
    injection h with h
    subst h
    exact (List.not_mem_nil v hv).elim
  | cons s rest ih =>
    simp only [dueUnits] at h
    cases hs : unitsForStation todayYear threeDaysAgoYear now force store s with
    | error e => rw [hs] at h; exact Except.noConfusion h
    | ok us =>
      rw [hs] at h
      cases hr : dueUnits todayYear threeDaysAgoYear now force store rest with
      | error e => rw [hr] at h; exact Except.noConfusion h
      | ok vs =>
        rw [hr] at h
        injection h with h
        subst h
        rcases List.mem_append.mp hv with hv1 | hv2
        · unfold unitsForStation at hs
          cases hy : dailyYearsIter s with
          | error e => rw [hy] at hs; exact Except.noConfusion hs
          | ok years =>
            rw [hy] at hs
            injection hs with hs
            subst hs
            rcases List.mem_filterMap.mp hv1 with ⟨y, -, hfy⟩
            simp only [unitForYear] at hfy
            by_cases hc : force = false ∧
                calcRefresh todayYear threeDaysAgoYear now y
                  (storeGet store (localPath s.stationId y)) = false
            · rw [if_pos hc] at hfy
              exact Option.noConfusion hfy
            · rw [if_neg hc] at hfy
              injection hfy with hfy
              subst hfy
              refine ⟨rfl, ?_⟩
              intro hforce
              cases hcalc : calcRefresh todayYear threeDaysAgoYear now y
                  (storeGet store (localPath s.stationId y)) with
              | false => exact absurd ⟨hforce, hcalc⟩ hc
              | true => rfl
        · exact ih vs hr hv2

/- The claims. -/

/-- C1: for every `todayYear`, `threeDaysAgoYear`, `now`, `year` and
`lastRefresh`, `calcRefresh` returns `true` iff `now - lastRefresh` exceeds
the threshold of the first matching age-class: 3600 s when `year` is the
current year or the year of `today - 3 days`, 2592000 s when `year` is the
current year minus one, 31536000 s otherwise; later rules are never
consulted once an earlier one matches. -/
theorem calcRefresh_matches_ageClassThreshold
    (todayYear threeDaysAgoYear now year lastRefresh : Int) :
    calcRefresh todayYear threeDaysAgoYear now year lastRefresh = true ↔
      now - lastRefresh > ageClassThreshold todayYear threeDaysAgoYear year := by
  unfold calcRefresh ageClassThreshold
  split_ifs <;> simp

/-- C2: a unit never fetched has no store entry, the lookup
`stationRefresh.get(fname, 0)` yields 0, and for every year the refresh
decision with `lastRefresh = 0` is `true` — a first fetch is always due.
The hypothesis `31536000 < now` states that the clock `timelib.time()`
reads a real Unix time (any instant after 1971), which every run satisfies. -/
theorem never_fetched_always_due (todayYear threeDaysAgoYear now year : Int)
    (store : Store) (key : String)
    (hmiss : store.find? (fun p => p.1 == key) = none) (hnow : 31536000 < now) :
    storeGet store key = 0 ∧
      calcRefresh todayYear threeDaysAgoYear now year (storeGet store key) = true := by
  have h0 : storeGet store key = 0 := by simp [storeGet, hmiss]
  refine ⟨h0, ?_⟩
  rw [h0]
  unfold calcRefresh
  split_ifs <;> simp only [decide_eq_true_eq] <;> omega

/-- Witness for C2 at a concrete never-fetched unit and a realistic clock. -/
theorem never_fetched_always_due_witness :
    storeGet [] "stations/0/5/1990.csv.xz" = 0 ∧
      calcRefresh 2025 2025 1760000000 1990 (storeGet [] "stations/0/5/1990.csv.xz") = true :=
  never_fetched_always_due 2025 2025 1760000000 1990 [] "stations/0/5/1990.csv.xz" rfl
    (by decide)

/-- C5: for a unit whose fetch fails (any transport error, e.g. a
`TimeoutError` raised before the store-update step), `getOneFile` raises
that error, the staleness store is left byte-for-byte unchanged, and in
particular the refresh decision for the unit's key on a later run is the
same as if the failed attempt had never happened — the unit stays due and
is re-attempted. -/
theorem fetch_failure_leaves_store (e : FetchError)
    (writeRes : String → Except FetchError Unit) (store : Store) (path : String)
    (now todayYear threeDaysAgoYear year : Int) :
    (getOneFile (Except.ok ()) (Except.error e) writeRes store path now).1 = Except.error e ∧
    (getOneFile (Except.ok ()) (Except.error e) writeRes store path now).2 = store ∧
    calcRefresh todayYear threeDaysAgoYear now year
        (storeGet (getOneFile (Except.ok ()) (Except.error e) writeRes store path now).2 path) =
      calcRefresh todayYear threeDaysAgoYear now year (storeGet store path) :=
  ⟨rfl, rfl, rfl⟩

/-- C4, counterexample: a station whose `dlyFirstYear` is present but whose
`dlyLastYear` is absent does not yield the empty sequence the claim
promises — `dailyYearsIter` evaluates `self.dlyLastYear + 1` on `None` and
raises `TypeError`. -/
theorem dailyYearsIter_missing_last_cex :
    dailyYearsIter ⟨71957, some 2015, none⟩ ≠ Except.ok [] ∧
    dailyYearsIter ⟨71957, some 2015, none⟩ = Except.error "TypeError" :=
  ⟨fun h => Except.noConfusion h, rfl⟩

/-- C4, amended: unit enumeration yields exactly one unit per integer year
in `[dlyFirstYear, dlyLastYear]` inclusive, in ascending order (2015-2018
gives exactly `[2015, 2016, 2017, 2018]`); when `dlyFirstYear` is absent it
yields the empty sequence; but when `dlyFirstYear` is present and
`dlyLastYear` is absent it raises `TypeError` instead of yielding the empty
sequence. -/
theorem dailyYearsIter_spec (sid f l : Int) (lastOpt : Option Int) (y : Int) :
    dailyYearsIter ⟨sid, none, lastOpt⟩ = Except.ok [] ∧
    dailyYearsIter ⟨sid, some f, none⟩ = Except.error "TypeError" ∧
    dailyYearsIter ⟨sid, some f, some l⟩ = Except.ok (intRange f (l + 1)) ∧
    (y ∈ intRange f (l + 1) ↔ f ≤ y ∧ y ≤ l) ∧
    List.Pairwise (fun a b => a < b) (intRange f (l + 1)) ∧
    dailyYearsIter ⟨sid, some 2015, some 2018⟩ = Except.ok [2015, 2016, 2017, 2018] := by
  refine ⟨rfl, rfl, rfl, ?_, ?_, rfl⟩
  · unfold intRange
    simp only [List.mem_map, List.mem_range]
    constructor
    · rintro ⟨i, hi, rfl⟩
      show f ≤ f + (i : Int) ∧ f + (i : Int) ≤ l
      omega
    · intro h
      refine ⟨(y - f).toNat, by omega, ?_⟩
      show f + ((y - f).toNat : Int) = y
      omega
  · unfold intRange
    refine (List.pairwise_lt_range _).map _ ?_
    intro a b hab
    show f + (a : Int) < f + (b : Int)
    omega

/-- C10: `update` requires the first CSV row after the skipped preamble to
equal, element for element, the fixed 19-column header, and otherwise
raises `AssertionError` with no station row ever reaching `getStation`;
entirely empty rows after a matching header are dropped and produce no
units. -/
theorem update_header_gate (first : List String) (rest : List (List String)) :
    expectedHeader.length = 19 ∧
    (first = expectedHeader →
      stationRows (first :: rest) = Except.ok (rest.filter (fun r => r.length != 0)) ∧
      ∀ r ∈ rest.filter (fun r => r.length != 0), r ≠ []) ∧
    (first ≠ expectedHeader → stationRows (first :: rest) = Except.error "AssertionError") := by
  refine ⟨rfl, ?_, ?_⟩
  · intro h
    refine ⟨by simp [stationRows, h], ?_⟩
    intro r hr
    rcases List.mem_filter.mp hr with ⟨-, hlen⟩
    intro hnil
    subst hnil
    simp at hlen
  · intro h
    simp [stationRows, h]

/-- C8: with `force = true` every enumerated unit is dispatched: the
submitted units are exactly the unfiltered enumeration `allUnits`, and the
result does not depend on the staleness store at all (neither the refresh
policy nor the store is consulted). -/
theorem force_dispatches_all_units (todayYear threeDaysAgoYear now : Int)
    (storeA storeB : Store) (stations : List InventoryStation) :
    dueUnits todayYear threeDaysAgoYear now true storeA stations = allUnits stations ∧
    dueUnits todayYear threeDaysAgoYear now true storeA stations =
      dueUnits todayYear threeDaysAgoYear now true storeB stations := by
  have key : ∀ (store : Store) (stations : List InventoryStation),
      dueUnits todayYear threeDaysAgoYear now true store stations = allUnits stations := by
    intro store stations
    induction stations with
    | nil => rfl
    | cons s rest ih =>
      have hmap : ∀ years : List Int, years.filterMap
          (unitForYear todayYear threeDaysAgoYear now true store s.stationId) =
          years.map (fun y => (⟨s.stationId, y, localPath s.stationId y⟩ : FetchUnit)) := by
        intro years
        induction years with
        | nil => rfl
        | cons y ys ihy => simp [List.filterMap_cons, unitForYear, ihy]
      cases hy : dailyYearsIter s with
      | error e =>
        simp only [dueUnits, allUnits, unitsForStation, hy]
      | ok years =>
        cases ha : allUnits rest with
        | error e =>
          simp only [dueUnits, allUnits, unitsForStation, hy, ih, ha]
        | ok vs =>
          simp only [dueUnits, allUnits, unitsForStation, hy, ih, ha, hmap years]
  exact ⟨key storeA stations, (key storeA stations).trans (key storeB stations).symm⟩

/-- C3, counterexample: one batch of two sibling units where the unit for
year 2000 times out and the unit for year 2001 succeeds.  The run's result
is the worker's error re-raised by the barrier `futures.pop(0).result()` —
`update` aborts with the `TimeoutError` instead of recording it in a
summary and completing normally, contradicting the claim that a per-unit
failure does not abort the orchestrator. -/
theorem failure_aborts_orchestrator_cex :
    updateRun 2000 2000 0 true [] [⟨1, some 2000, some 2001⟩] outcomeYear2000Fails =
      Except.ok (Except.error FetchError.timeoutError, [(localPath 1 2001, 0)]) :=
  rfl

/-- C3, amended: a fetch or sink failure for one unit does not prevent
sibling units from being submitted and executed — every successful sibling
still records its fetch in the staleness store — but there is no failure
summary: the completion barrier re-raises the first failure, so `update`
finishes without an exception iff every submitted unit succeeded. -/
theorem failure_does_not_stop_siblings (todayYear threeDaysAgoYear now : Int)
    (force : Bool) (store : Store) (stations : List InventoryStation)
    (outcome : FetchUnit → Except FetchError Unit) (units : List FetchUnit)
    (h : dueUnits todayYear threeDaysAgoYear now force store stations = Except.ok units) :
    updateRun todayYear threeDaysAgoYear now force store stations outcome =
      Except.ok (barrier outcome units, runStore outcome now store units) ∧
    (barrier outcome units = Except.ok () ↔ ∀ u ∈ units, outcome u = Except.ok ()) ∧
    (∀ u ∈ units, outcome u = Except.ok () →
      storeGet (runStore outcome now store units) u.key = now) := by
  refine ⟨by simp only [updateRun, h], barrier_ok_iff outcome units, ?_⟩
  intro u hu ho
  exact storeGet_runStore_of_mem outcome now store units u.key ⟨u, hu, rfl, ho⟩

/-- Witness for C3's amended theorem at the counterexample batch. -/
theorem failure_does_not_stop_siblings_witness :
    (updateRun 2000 2000 0 true [] [⟨1, some 2000, some 2001⟩] outcomeYear2000Fails =
      Except.ok
        (barrier outcomeYear2000Fails
          [⟨1, 2000, localPath 1 2000⟩, ⟨1, 2001, localPath 1 2001⟩],
         runStore outcomeYear2000Fails 0 []
          [⟨1, 2000, localPath 1 2000⟩, ⟨1, 2001, localPath 1 2001⟩])) ∧
    (barrier outcomeYear2000Fails
        [⟨1, 2000, localPath 1 2000⟩, ⟨1, 2001, localPath 1 2001⟩] = Except.ok () ↔
      ∀ u ∈ [(⟨1, 2000, localPath 1 2000⟩ : FetchUnit), ⟨1, 2001, localPath 1 2001⟩],
        outcomeYear2000Fails u = Except.ok ()) ∧
    (∀ u ∈ [(⟨1, 2000, localPath 1 2000⟩ : FetchUnit), ⟨1, 2001, localPath 1 2001⟩],
      outcomeYear2000Fails u = Except.ok () →
        storeGet
          (runStore outcomeYear2000Fails 0 []
            [⟨1, 2000, localPath 1 2000⟩, ⟨1, 2001, localPath 1 2001⟩]) u.key = 0) :=
  failure_does_not_stop_siblings 2000 2000 0 true [] [⟨1, some 2000, some 2001⟩]
    outcomeYear2000Fails [⟨1, 2000, localPath 1 2000⟩, ⟨1, 2001, localPath 1 2001⟩] rfl

/-- C6: with the same `now` and the same station sequence, a run is a pure
function of the starting store, so two runs from a reset store submit the
same units (the two run expressions are definitionally equal); and with
persistence intact, a unit `u` fetched successfully in the first run (its
key was overwritten with `now`) is never fetched by the second run: no unit
`v` the second run submits can share `u`'s key, because `calcRefresh` at
age `now - now = 0` is below every threshold. -/
theorem second_run_skips_succeeded (todayYear threeDaysAgoYear now : Int)
    (store0 : Store) (stations : List InventoryStation)
    (outcome : FetchUnit → Except FetchError Unit)
    (units units2 : List FetchUnit) (u v : FetchUnit)
    (h1 : dueUnits todayYear threeDaysAgoYear now false store0 stations = Except.ok units)
    (hu : u ∈ units) (hok : outcome u = Except.ok ())
    (h2 : dueUnits todayYear threeDaysAgoYear now false
        (runStore outcome now store0 units) stations = Except.ok units2)
    (hv : v ∈ units2) :
    (dueUnits todayYear threeDaysAgoYear now false store0 stations =
      dueUnits todayYear threeDaysAgoYear now false store0 stations) ∧
    v.key ≠ u.key := by
  refine ⟨rfl, ?_⟩
  intro hkey
  have hspec := (dueUnits_mem todayYear threeDaysAgoYear now false
    (runStore outcome now store0 units) stations units2 h2 v hv).2 rfl
  have hget : storeGet (runStore outcome now store0 units) v.key = now :=
    storeGet_runStore_of_mem outcome now store0 units v.key ⟨u, hu, hkey.symm, hok⟩
  rw [hget, calcRefresh_at_now_false] at hspec
  exact Bool.noConfusion hspec

/-- Witness for C6: two stations, each one year-2000 unit; station 1's
fetch succeeds, station 2's times out.  The second run submits only station
2's unit, whose key differs from the succeeded unit's key. -/
theorem second_run_skips_succeeded_witness :
    (dueUnits 2000 2000 4000 false []
        [⟨1, some 2000, some 2000⟩, ⟨2, some 2000, some 2000⟩] =
      dueUnits 2000 2000 4000 false []
        [⟨1, some 2000, some 2000⟩, ⟨2, some 2000, some 2000⟩]) ∧
    (⟨2, 2000, localPath 2 2000⟩ : FetchUnit).key ≠
      (⟨1, 2000, localPath 1 2000⟩ : FetchUnit).key :=
  second_run_skips_succeeded 2000 2000 4000 []
    [⟨1, some 2000, some 2000⟩, ⟨2, some 2000, some 2000⟩] outcomeStation1Succeeds
    [⟨1, 2000, localPath 1 2000⟩, ⟨2, 2000, localPath 2 2000⟩]
    [⟨2, 2000, localPath 2 2000⟩] ⟨1, 2000, localPath 1 2000⟩ ⟨2, 2000, localPath 2 2000⟩
    rfl (List.mem_cons_self _ _) rfl rfl (List.mem_cons_self _ _)

/-- C7: the local path is the pure function
`stations/(stationId // 1000)/stationId/year.csv.xz` of `stationId` and
`year` alone — for station 71957 it is `stations/71/71957/(year).csv.xz`
for every year — and every unit the orchestrator submits carries exactly
`localPath stationId year` as its key, the same string used for the
staleness-store lookup and update. -/
theorem due_unit_key_is_localPath (todayYear threeDaysAgoYear now : Int) (force : Bool)
    (store : Store) (stations : List InventoryStation) (units : List FetchUnit)
    (v : FetchUnit) (year : Int)
    (h : dueUnits todayYear threeDaysAgoYear now force store stations = Except.ok units)
    (hv : v ∈ units) :
    v.key = localPath v.stationId v.year ∧
    localPath 71957 year = "stations/71/71957/" ++ toString year ++ ".csv.xz" := by
  refine ⟨(dueUnits_mem todayYear threeDaysAgoYear now force store stations units h v hv).1, ?_⟩
  show dirname 71957 ++ "/" ++ toString year ++ ".csv.xz" = _
  rw [show dirname 71957 ++ "/" = "stations/71/71957/" from by decide]

/-- Witness for C7 at station 71957, year 2003, fetched under `force`. -/
theorem due_unit_key_is_localPath_witness :
    (⟨71957, 2003, localPath 71957 2003⟩ : FetchUnit).key =
      localPath (⟨71957, 2003, localPath 71957 2003⟩ : FetchUnit).stationId
        (⟨71957, 2003, localPath 71957 2003⟩ : FetchUnit).year ∧
    localPath 71957 2003 = "stations/71/71957/" ++ toString (2003 : Int) ++ ".csv.xz" :=
  due_unit_key_is_localPath 0 0 0 true [] [⟨71957, some 2003, some 2003⟩]
    [⟨71957, 2003, localPath 71957 2003⟩] ⟨71957, 2003, localPath 71957 2003⟩ 2003 rfl
    (List.mem_singleton.mpr rfl)
